import Mathlib

/-!
Shallow embedding of `src/Stoker_Scraper.py` (stokercloud-ntfy).

Times are modelled as rational numbers of seconds (UTC), masses as rational
kilograms.  Remote HTTP calls are modelled as oracles: each call's outcome
(parsed JSON payload, token string, or failure) is an input to the embedded
function, quantified over in the theorems.  Python exceptions are modelled
with `Except PyExn`.
-/

/-- One entry of `frontdata` / `hopperdata`: a JSON object, of which the
script reads the keys `id`, `unit` and `value` via `dict.get` (absent key
gives `None`, i.e. `none`).  A present `value` is abstracted by the string
`str(value)` produces, since the script only ever coerces it with `str`. -/
structure Item where
  id : Option String
  unit : Option String
  value : Option String
  deriving Repr, DecidableEq

/-- The value stored under a top-level key of the payload: the key can be
absent, hold a non-list JSON value (abstracted by its `repr` string), or
hold a list of objects. -/
inductive FieldV where
  | absent
  | nonList (reprStr : String)
  | list (items : List Item)
  deriving Repr, DecidableEq

/-- Parsed JSON body of `controllerdata2.php`, restricted to the two keys
the script reads. -/
structure Payload where
  frontdata : FieldV
  hopperdata : FieldV
  deriving Repr, DecidableEq

/-- Python exception values that the script can raise or receive.
`valueErr` is the `ValueError` from `float(...)`; `notFound` is the
`RuntimeError` raised at `Stoker_Scraper.py:116` and carries the two field
values interpolated into its message; `net` stands for any
`requests`/HTTP/JSON failure delivered by the remote; `attrErr` is the
`AttributeError` from `None.rstrip` at `Stoker_Scraper.py:123`;
`authErr` stands for login failures (`RuntimeError("Token not found...")`). -/
inductive PyExn where
  | valueErr (raw : String)
  | notFound (fd : FieldV) (hd : FieldV)
  | net (tag : Nat)
  | attrErr
  | authErr (tag : Nat)
  deriving Repr, DecidableEq

/-- `data.get(key, [])`: an absent key defaults to the empty list
(`Stoker_Scraper.py:87` and `:100`). -/
def FieldV.getD : FieldV → FieldV
  | .absent => .list []
  | v => v

/-- `str(item.get("value"))`: an absent value is `None`, which `str`
coerces to the string `"None"` (`Stoker_Scraper.py:91,107`). -/
def strCoerce : Option String → String
  | none => "None"
  | some s => s

/-- Value of a digit list read in base 10 (most significant first). -/
def digitsVal (cs : List Char) : Nat :=
  cs.foldl (fun acc c => acc * 10 + (c.toNat - '0'.toNat)) 0

/-- Exponent part of a Python float literal: `[e|E][+|-]digits` followed by
optional whitespace.  Returns the exponent, or `none` if malformed. -/
def parseExpPart : List Char → Option Int
  | [] => some 0
  | 'e' :: rest => parseSignedDigits rest
  | 'E' :: rest => parseSignedDigits rest
  | cs => if cs.dropWhile Char.isWhitespace = [] then some 0 else none
where
  parseSignedDigits : List Char → Option Int
    | '+' :: rest => parseDigits rest 1
    | '-' :: rest => parseDigits rest (-1)
    | rest => parseDigits rest 1
  parseDigits (rest : List Char) (sign : Int) : Option Int :=
    let (ds, tail) := rest.span Char.isDigit
    if ds = [] then none
    else if tail.dropWhile Char.isWhitespace = [] then some (sign * digitsVal ds)
    else none

/-- Components of a parsed float literal: the sign, the integer-part
digits' value, the fraction-part digits' value, the number of fraction
digits, and the exponent. -/
structure FloatParts where
  sign : Int
  ipVal : Nat
  fpVal : Nat
  fpLen : Nat
  exp : Int
  deriving Repr, DecidableEq

/-- Syntax phase of Python's `float(s)`: optional surrounding whitespace,
optional sign, decimal digits with an optional point with the mantissa
non-empty, optional exponent; anything else raises `ValueError` (`none`
here).  `inf`/`nan` and digit underscores are not modelled: no claim
touches them and the telemetry values are plain decimals. -/
def parseFloatParts (s : String) : Option FloatParts :=
  let cs := s.data.dropWhile Char.isWhitespace
  let (sign, cs) : Int × List Char :=
    match cs with
    | '+' :: rest => (1, rest)
    | '-' :: rest => (-1, rest)
    | rest => (1, rest)
  let (ip, rest1) := cs.span Char.isDigit
  match rest1 with
  | '.' :: rest2 =>
    let (fp, rest3) := rest2.span Char.isDigit
    if ip = [] ∧ fp = [] then none
    else
      match parseExpPart rest3 with
      | none => none
      | some e => some ⟨sign, digitsVal ip, digitsVal fp, fp.length, e⟩
  | _ =>
    if ip = [] then none
    else
      match parseExpPart rest1 with
      | none => none
      | some e => some ⟨sign, digitsVal ip, 0, 0, e⟩

/-- Exact rational value denoted by parsed float components. -/
def FloatParts.val (p : FloatParts) : ℚ :=
  (p.sign : ℚ) * ((p.ipVal : ℚ) + (p.fpVal : ℚ) / (10 : ℚ) ^ p.fpLen) * (10 : ℚ) ^ p.exp

/-- Python's `float(s)` on a string, modelled over the exact rationals. -/
def parseFloat (s : String) : Option ℚ :=
  (parseFloatParts s).map FloatParts.val

/-- Python's `raw_val.replace(",", ".")` (`Stoker_Scraper.py:92,108`): the
pattern is the single character `,`, so the call replaces each comma by a
dot pointwise. -/
def commaToDot (s : String) : String :=
  ⟨s.data.map (fun c => if c = ',' then '.' else c)⟩

/-- Predicate of the `frontdata` loop (`Stoker_Scraper.py:90`):
`item.get("id") == "hoppercontent"`. -/
def frontMatch (it : Item) : Bool :=
  it.id == some "hoppercontent"

/-- Predicate of the `hopperdata` loop (`Stoker_Scraper.py:103-106`):
`item.get("id") == "3" and item.get("unit") == "LNG_KG"`. -/
def hopperMatch (it : Item) : Bool :=
  it.id == some "3" && it.unit == some "LNG_KG"

/-- Abstracted Python `repr` of an item (a dict with the three keys the
model retains). -/
def pyReprItem (it : Item) : String :=
  "\x7bid: " ++ strCoerce it.id ++ ", unit: " ++ strCoerce it.unit ++
    ", value: " ++ strCoerce it.value ++ "\x7d"

/-- Abstracted Python `repr` of a top-level field value as interpolated by
the f-string at `Stoker_Scraper.py:118`: an absent key read with plain
`.get` gives `None`. -/
def pyReprVal : FieldV → String
  | .absent => "None"
  | .nonList r => r
  | .list items => "[" ++ String.intercalate ", " (items.map pyReprItem) ++ "]"

/-- Message text of the exceptions the script itself constructs; a
`notFound` message is the `RuntimeError` text of `Stoker_Scraper.py:116-119`,
with `frontdata` the defaulted variable and `hopperdata` read raw. -/
def errMessage : PyExn → String
  | .notFound fd hd =>
      "Could not find hopper value in frontdata/hopperdata. frontdata=" ++
        pyReprVal fd ++ ", hopperdata=" ++ pyReprVal hd
  | .valueErr raw => "could not convert string to float: " ++ raw
  | .net tag => "network error " ++ toString tag
  | .attrErr => "NoneType object has no attribute rstrip"
  | .authErr tag => "auth error " ++ toString tag

/-- Pure extraction part of `get_hopper_kg` (`Stoker_Scraper.py:86-120`),
applied to an already-parsed payload.  The first matching `frontdata` item
is parsed immediately (a parse failure raises `ValueError` out of the
function); only if `frontdata` yields nothing is `hopperdata` consulted;
if neither yields a value the `RuntimeError` carries both field values. -/
def extract_hopper (data : Payload) : Except PyExn ℚ :=
  let frontdata := data.frontdata.getD
  let step1 : Except PyExn (Option ℚ) :=
    match frontdata with
    | .list items =>
      match items.find? frontMatch with
      | some it =>
        let raw := strCoerce it.value
        match parseFloat (commaToDot raw) with
        | some q => .ok (some q)
        | none => .error (.valueErr raw)
      | none => .ok none
    | _ => .ok none
  match step1 with
  | .error e => .error e
  | .ok (some q) => .ok q
  | .ok none =>
    let step2 : Except PyExn (Option ℚ) :=
      match data.hopperdata.getD with
      | .list items =>
        match items.find? hopperMatch with
        | some it =>
          let raw := strCoerce it.value
          match parseFloat (commaToDot raw) with
          | some q => .ok (some q)
          | none => .error (.valueErr raw)
        | none => .ok none
      | _ => .ok none
    match step2 with
    | .error e => .error e
    | .ok (some q) => .ok q
    | .ok none => .error (.notFound frontdata data.hopperdata)

/-- Behaviour of the remote StokerCloud endpoints during one
`safe_get_hopper` call, given as oracles: `fetchResp tok i` is the HTTP/JSON
outcome of the `i`-th `controllerdata2.php` request (made with token `tok`),
`loginRes` the outcome of `login_and_get_token` (a token, or any of its
failures), `acceptRes tok` the outcome of `accept_terms`. -/
structure RemoteBehavior where
  fetchResp : String → Nat → Except PyExn Payload
  loginRes : Except PyExn String
  acceptRes : String → Except PyExn Unit

/-- `get_hopper_kg` (`Stoker_Scraper.py:71-120`): perform the
controller-data request (outcome supplied by the oracle) and extract the
hopper mass from the parsed body. -/
def get_hopper_kg (rb : RemoteBehavior) (token : String) (idx : Nat) : Except PyExn ℚ :=
  match rb.fetchResp token idx with
  | .error e => .error e
  | .ok data => extract_hopper data

/-- Remote calls observable during `safe_get_hopper`, in order. -/
inductive CallEv where
  | fetch (token : String)
  | login
  | accept (token : String)
  deriving Repr, DecidableEq

/-- `safe_get_hopper` (`Stoker_Scraper.py:148-171`): try the fetch with the
current token; on any failure re-login, accept terms, retry the fetch once
with the new token, propagating any failure of that recovery sequence.
Returns the Python result paired with the trace of remote calls made. -/
def safe_get_hopper (rb : RemoteBehavior) (token : String) :
    Except PyExn (ℚ × String) × List CallEv :=
  match get_hopper_kg rb token 0 with
  | .ok kg => (.ok (kg, token), [.fetch token])
  | .error _ =>
    match rb.loginRes with
    | .error e2 => (.error e2, [.fetch token, .login])
    | .ok newToken =>
      match rb.acceptRes newToken with
      | .error e2 => (.error e2, [.fetch token, .login, .accept newToken])
      | .ok _ =>
        match get_hopper_kg rb newToken 1 with
        | .ok kg => (.ok (kg, newToken), [.fetch token, .login, .accept newToken, .fetch newToken])
        | .error e2 => (.error e2, [.fetch token, .login, .accept newToken, .fetch newToken])

/-- Configuration snapshot (`Stoker_Scraper.py:21-28`, already parsed from
the environment).  `checkInterval` in seconds, `minAlertIntervalMin` in
minutes; `maxCapacityKg` and `ntfyServer` are optional. -/
structure Config where
  lowThresholdKg : ℚ
  checkInterval : Nat
  maxCapacityKg : Option ℚ
  ntfyServer : Option String
  ntfyTopic : String
  ntfyTitle : String
  ntfyPriority : String
  minAlertIntervalMin : Int

/-- `Stoker_Scraper.py:183-185`: percent is set only when
`max_capacity_kg_val` is truthy (a configured, non-zero float) and
positive. -/
def computePercent (maxCap : Option ℚ) (kg : ℚ) : Option ℚ :=
  match maxCap with
  | none => none
  | some m => if m ≠ 0 then (if 0 < m then some (kg / m * 100) else none) else none

/-- Python `f"{x:.1f}"`: format with one decimal digit.  The model rounds
the exact rational to the nearest tenth with `round` (half away from
midpoint upward); CPython rounds the nearest binary double half-to-even,
which agrees at every non-tie value, and every value the claims use is a
non-tie. -/
def formatOneDec (q : ℚ) : String :=
  let n : Int := round (q * 10)
  let a : Nat := n.natAbs
  (if n < 0 then "-" else "") ++ toString (a / 10) ++ "." ++ toString (a % 10)

/-- Message body built by `send_ntfy_alert` (`Stoker_Scraper.py:124-133`). -/
def buildMessage (cfg : Config) (hopperKg : ℚ) (percent : Option ℚ) : String :=
  match percent with
  | some p =>
    "Hopper low: " ++ formatOneDec hopperKg ++ " kg remaining (" ++
      formatOneDec p ++ "% of capacity). Threshold: " ++
      formatOneDec cfg.lowThresholdKg ++ " kg."
  | none =>
    "Hopper low: " ++ formatOneDec hopperKg ++ " kg remaining. Threshold: " ++
      formatOneDec cfg.lowThresholdKg ++ " kg."

/-- `send_ntfy_alert` (`Stoker_Scraper.py:122-145`).  The URL is built from
`NTFY_SERVER` before the `try` block, so an unset server raises
`AttributeError` (`None.rstrip`) out of the function; once inside the
`try`, any failure of the POST (outcome supplied as `postRes`) is caught
and logged, and the function returns normally. -/
def send_ntfy_alert (cfg : Config) (hopperKg : ℚ) (percent : Option ℚ)
    (postRes : Except PyExn Unit) : Except PyExn Unit :=
  match cfg.ntfyServer with
  | none => .error .attrErr
  | some _ =>
    let _msg := buildMessage cfg hopperKg percent
    match postRes with
    | .ok _ => .ok ()
    | .error _ => .ok ()

/-- The alert decision of the poll loop (`Stoker_Scraper.py:186-191`,
the spec's `decide(reading, lastAlertTime, now)`): send iff the reading is
at or below the threshold and either no alert was ever sent or at least
`MIN_ALERT_INTERVAL_MIN * 60` seconds have elapsed since the last one. -/
def alert_decide (cfg : Config) (hopperKg : ℚ) (lastAlertTime : Option ℚ)
    (now : ℚ) : Bool :=
  decide (hopperKg ≤ cfg.lowThresholdKg) &&
    (match lastAlertTime with
     | none => true
     | some t => decide (now - t ≥ (cfg.minAlertIntervalMin : ℚ) * 60))

/-- Mutable state of `main`'s loop: the `token` variable and
`last_alert_time`. -/
structure LoopState where
  token : String
  lastAlertTime : Option ℚ
  deriving Repr, DecidableEq

/-- Everything outside the loop's control that one cycle consumes: the
remote's behaviour for this cycle's `safe_get_hopper`, the wall-clock
values returned by the two `datetime.now(timezone.utc)` calls
(`Stoker_Scraper.py:189` and `:194`), and the outcome of the ntfy POST. -/
structure CycleInput where
  remote : RemoteBehavior
  nowDecide : ℚ
  nowUpdate : ℚ
  postRes : Except PyExn Unit

/-- One iteration of the `while True` body (`Stoker_Scraper.py:181-209`):
the whole body is wrapped in `try/except`, so any exception leaves the
loop alive with whatever assignments had already happened.  If
`safe_get_hopper` raises, neither `token` nor `last_alert_time` was
assigned; if it returns, `token` is updated, and `last_alert_time` is set
to the second clock reading only when the alert branch ran and
`send_ntfy_alert` returned normally (it swallows POST failures but raises
when no server is configured). -/
def cycleStep (cfg : Config) (inp : CycleInput) (st : LoopState) : LoopState :=
  match (safe_get_hopper inp.remote st.token).1 with
  | .error _ => st
  | .ok (hopperKg, newToken) =>
    let percent := computePercent cfg.maxCapacityKg hopperKg
    if alert_decide cfg hopperKg st.lastAlertTime inp.nowDecide then
      match send_ntfy_alert cfg hopperKg percent inp.postRes with
      | .ok _ => ⟨newToken, some inp.nowUpdate⟩
      | .error _ => ⟨newToken, st.lastAlertTime⟩
    else ⟨newToken, st.lastAlertTime⟩

/-- The poll loop run over a finite prefix of cycles (`Stoker_Scraper.py:
180-210`): each cycle consumes one `CycleInput`, then the loop sleeps
`CHECK_INTERVAL` seconds.  Returns the final state and the list of sleep
durations performed, in order. -/
def runCycles (cfg : Config) (inputs : List CycleInput) (st : LoopState) :
    LoopState × List Nat :=
  match inputs with
  | [] => (st, [])
  | inp :: rest =>
    let next := runCycles cfg rest (cycleStep cfg inp st)
    (next.1, cfg.checkInterval :: next.2)

/-- Concrete configuration used by closed instances: threshold 140 kg, poll
interval 60 s, max capacity 500 kg, ntfy server configured, minimum alert
interval 2 min (the script's defaults). -/
def cfgServer : Config :=
  ⟨140, 60, some 500, some "https://ntfy.sh", "topic", "Stoker hopper low", "4", 2⟩

/-- C1: the alert decision returns true iff the reading is at or below the
threshold (inclusive) and the last-alert time is absent or lies at least
`MIN_ALERT_INTERVAL_MIN * 60` seconds in the past (inclusive boundary);
otherwise false.  The closed conjuncts check the spec's cooldown boundary:
one second short of the interval blocks the alert, the exact interval
allows it. -/
theorem alert_decide_spec :
    (∀ (cfg : Config) (kg : ℚ) (last : Option ℚ) (now : ℚ),
        alert_decide cfg kg last now = true ↔
          kg ≤ cfg.lowThresholdKg ∧
            (last = none ∨
              ∃ t, last = some t ∧ now - t ≥ (cfg.minAlertIntervalMin : ℚ) * 60)) ∧
    alert_decide cfgServer 100 (some (10000 - 119)) 10000 = false ∧
    alert_decide cfgServer 100 (some (10000 - 120)) 10000 = true := by
  refine ⟨fun cfg kg last now => ?_, by norm_num [alert_decide, cfgServer],
    by norm_num [alert_decide, cfgServer]⟩
  cases last with
  | none => simp [alert_decide]
  | some t => simp [alert_decide]

/-- The first matching `frontdata` entry supplies the value when it
parses, whatever `hopperdata` holds. -/
lemma extract_front (data : Payload) (items : List Item) (it : Item) (q : ℚ)
    (h1 : data.frontdata = FieldV.list items)
    (h2 : items.find? frontMatch = some it)
    (h3 : parseFloat (commaToDot (strCoerce it.value)) = some q) :
    extract_hopper data = .ok q := by
  simp only [extract_hopper, h1, FieldV.getD, h2, h3]

/-- The first matching `frontdata` entry raises `ValueError` when it does
not parse, whatever `hopperdata` holds. -/
lemma extract_front_err (data : Payload) (items : List Item) (it : Item)
    (h1 : data.frontdata = FieldV.list items)
    (h2 : items.find? frontMatch = some it)
    (h3 : parseFloat (commaToDot (strCoerce it.value)) = none) :
    extract_hopper data = .error (.valueErr (strCoerce it.value)) := by
  simp only [extract_hopper, h1, FieldV.getD, h2, h3]

/-- When `frontdata` yields no match, the value comes from the first
matching `hopperdata` entry. -/
lemma extract_fallback (data : Payload) (items : List Item) (it : Item) (q : ℚ)
    (hf : ∀ l, data.frontdata = FieldV.list l → l.find? frontMatch = none)
    (h1 : data.hopperdata = FieldV.list items)
    (h2 : items.find? hopperMatch = some it)
    (h3 : parseFloat (commaToDot (strCoerce it.value)) = some q) :
    extract_hopper data = .ok q := by
  cases hfd : data.frontdata with
  | absent => simp only [extract_hopper, hfd, FieldV.getD, List.find?_nil, h1, h2, h3]
  | nonList r => simp only [extract_hopper, hfd, FieldV.getD, h1, h2, h3]
  | list l =>
    have hnone := hf l hfd
    simp only [extract_hopper, hfd, FieldV.getD, hnone, h1, h2, h3]

/-- When neither source yields a match, extraction fails with the
`RuntimeError` carrying both field values. -/
lemma extract_none (data : Payload)
    (hf : ∀ l, data.frontdata.getD = FieldV.list l → l.find? frontMatch = none)
    (hh : ∀ l, data.hopperdata.getD = FieldV.list l → l.find? hopperMatch = none) :
    extract_hopper data = .error (.notFound data.frontdata.getD data.hopperdata) := by
  have front : ∀ v : FieldV, v = data.frontdata.getD →
      (match v with
        | FieldV.list items =>
          match items.find? frontMatch with
          | some it =>
            match parseFloat (commaToDot (strCoerce it.value)) with
            | some q => Except.ok (some q)
            | none => Except.error (PyExn.valueErr (strCoerce it.value))
          | none => (Except.ok none : Except PyExn (Option ℚ))
        | _ => Except.ok none) = Except.ok none := by
    intro v hv
    cases v with
    | absent => rfl
    | nonList r => rfl
    | list l => have hn := hf l hv.symm; simp [hn]
  have hopper : ∀ v : FieldV, v = data.hopperdata.getD →
      (match v with
        | FieldV.list items =>
          match items.find? hopperMatch with
          | some it =>
            match parseFloat (commaToDot (strCoerce it.value)) with
            | some q => Except.ok (some q)
            | none => Except.error (PyExn.valueErr (strCoerce it.value))
          | none => (Except.ok none : Except PyExn (Option ℚ))
        | _ => Except.ok none) = Except.ok none := by
    intro v hv
    cases v with
    | absent => rfl
    | nonList r => rfl
    | list l => have hn := hh l hv.symm; simp [hn]
  simp only [extract_hopper, front _ rfl, hopper _ rfl]

/-- The comma value of the spec's extraction example parses to `123.4`. -/
lemma parse_comma_example : parseFloat (commaToDot (strCoerce (some "123,4"))) = some (1234 / 10) := by
  have hp : parseFloatParts (commaToDot (strCoerce (some "123,4"))) = some ⟨1, 123, 4, 1, 0⟩ := by
    decide
  simp only [parseFloat, hp, Option.map_some, Option.some.injEq]
  norm_num [FloatParts.val]

/-- The dotted value of the spec's fallback example parses to `87`. -/
lemma parse_dot_example : parseFloat (commaToDot (strCoerce (some "87.0"))) = some 87 := by
  have hp : parseFloatParts (commaToDot (strCoerce (some "87.0"))) = some ⟨1, 87, 0, 1, 0⟩ := by
    decide
  simp only [parseFloat, hp, Option.map_some, Option.some.injEq]
  norm_num [FloatParts.val]

/-- An absent value is coerced to the string `"None"`, which `float` rejects. -/
lemma parse_none_fails : parseFloat (commaToDot (strCoerce (none : Option String))) = none := by
  have hp : parseFloatParts (commaToDot (strCoerce (none : Option String))) = none := by decide
  simp [parseFloat, hp]

/-- A payload in which both sources match: `frontdata` has a
`hoppercontent` entry with the comma-decimal value `"123,4"` and
`hopperdata` has an `id="3"`, `unit="LNG_KG"` entry. -/
def payloadBoth : Payload :=
  ⟨FieldV.list [⟨some "hoppercontent", none, some "123,4"⟩],
   FieldV.list [⟨some "3", some "LNG_KG", some "87.0"⟩]⟩

/-- A payload whose only usable source is the `hopperdata` fallback. -/
def payloadHopperOnly : Payload :=
  ⟨FieldV.absent, FieldV.list [⟨some "3", some "LNG_KG", some "87.0"⟩]⟩

/-- A payload with both keys absent entirely. -/
def payloadEmpty : Payload := ⟨FieldV.absent, FieldV.absent⟩

/-- A payload whose `frontdata` entry matches but has no `value` key,
while `hopperdata` holds a matching, parseable entry. -/
def payloadNoneVal : Payload :=
  ⟨FieldV.list [⟨some "hoppercontent", none, none⟩],
   FieldV.list [⟨some "3", some "LNG_KG", some "87.0"⟩]⟩

/-- C3: extraction tries `frontdata` first (first entry with id
`"hoppercontent"`), then `hopperdata` (first entry with id `"3"` and unit
`"LNG_KG"`); a matching `frontdata` entry wins unconditionally (the first
conjunct puts no condition on `hopperdata`, and the last conjunct shows it
concretely on a payload where both sources match); the chosen value is
string-coerced, commas become dots, and the result is parsed as a
decimal, so `"123,4"` yields `123.4`. -/
theorem extract_hopper_policy :
    (∀ (data : Payload) (items : List Item) (it : Item) (q : ℚ),
        data.frontdata = FieldV.list items →
        items.find? frontMatch = some it →
        parseFloat (commaToDot (strCoerce it.value)) = some q →
        extract_hopper data = .ok q) ∧
    (∀ (data : Payload) (items : List Item) (it : Item) (q : ℚ),
        (∀ l, data.frontdata = FieldV.list l → l.find? frontMatch = none) →
        data.hopperdata = FieldV.list items →
        items.find? hopperMatch = some it →
        parseFloat (commaToDot (strCoerce it.value)) = some q →
        extract_hopper data = .ok q) ∧
    commaToDot (strCoerce (some "123,4")) = "123.4" ∧
    parseFloat (commaToDot (strCoerce (some "123,4"))) = some (1234 / 10) ∧
    extract_hopper payloadBoth = .ok (1234 / 10) := by
  refine ⟨extract_front, extract_fallback, by decide, parse_comma_example,
    extract_front payloadBoth _ _ _ rfl rfl parse_comma_example⟩

/-- C3 witness: the fallback branch of the policy applied to a payload
with no `frontdata` key and a matching `hopperdata` entry. -/
theorem extract_hopper_policy_witness :
    extract_hopper payloadHopperOnly = Except.ok 87 :=
  extract_hopper_policy.2.1 payloadHopperOnly _ _ 87
    (fun _ h => nomatch h) rfl rfl parse_dot_example

/-- C4: whenever neither the `frontdata` path nor the `hopperdata` path
yields a value, extraction fails with the `RuntimeError`, whose message
embeds the (defaulted) `frontdata` variable and the raw `hopperdata`
contents of the payload. -/
theorem extract_hopper_no_match :
    ∀ (data : Payload),
      (∀ l, data.frontdata.getD = FieldV.list l → l.find? frontMatch = none) →
      (∀ l, data.hopperdata.getD = FieldV.list l → l.find? hopperMatch = none) →
      extract_hopper data = .error (.notFound data.frontdata.getD data.hopperdata) ∧
      ∃ a b, errMessage (PyExn.notFound data.frontdata.getD data.hopperdata) =
          a ++ pyReprVal data.frontdata.getD ++ b ++ pyReprVal data.hopperdata := by
  intro data hf hh
  exact ⟨extract_none data hf hh,
    "Could not find hopper value in frontdata/hopperdata. frontdata=",
    ", hopperdata=", rfl⟩

/-- C4 witness: a payload with both keys absent. -/
theorem extract_hopper_no_match_witness :
    extract_hopper payloadEmpty = Except.error (PyExn.notFound (FieldV.list []) FieldV.absent) :=
  (extract_hopper_no_match payloadEmpty (fun _ h => by cases h; rfl)
    (fun _ h => by cases h; rfl)).1

/-- C10: a matching `frontdata` entry whose coerced value does not parse
(such as an absent value coerced to `"None"`, second conjunct) makes
extraction raise the `ValueError` at once, for every `hopperdata`
whatsoever — the fallback is never consulted. -/
theorem extract_hopper_parse_failure :
    (∀ (data : Payload) (items : List Item) (it : Item),
        data.frontdata = FieldV.list items →
        items.find? frontMatch = some it →
        parseFloat (commaToDot (strCoerce it.value)) = none →
        extract_hopper data = .error (.valueErr (strCoerce it.value))) ∧
    parseFloat (commaToDot (strCoerce (none : Option String))) = none :=
  ⟨extract_front_err, parse_none_fails⟩

/-- C10 witness: the `frontdata` entry has no `value` key, so parsing of
`"None"` fails, although `hopperdata` holds a matching, parseable entry. -/
theorem extract_hopper_parse_failure_witness :
    extract_hopper payloadNoneVal = Except.error (PyExn.valueErr "None") :=
  extract_hopper_parse_failure.1 payloadNoneVal _ _ rfl rfl parse_none_fails

/-- C2: the full behaviour contract of `safe_get_hopper`.  A successful
first fetch returns its value with the original token after a single
remote call; on any first-fetch failure the call continues with exactly
one recovery sequence starting `login` (second trace entry), whose
outcome is propagated: a failing login or terms-acceptance or second
fetch propagates that second failure, a successful recovery returns the
second fetch's value with the new token.  In every case at most two
fetches and at most one login are performed. -/
theorem safe_get_hopper_contract (rb : RemoteBehavior) (token : String) :
    (∀ kg, get_hopper_kg rb token 0 = .ok kg →
        safe_get_hopper rb token = (.ok (kg, token), [.fetch token])) ∧
    (∀ e, get_hopper_kg rb token 0 = .error e →
        ((safe_get_hopper rb token).2.take 2 = [CallEv.fetch token, CallEv.login] ∧
         (∀ e2, rb.loginRes = .error e2 → (safe_get_hopper rb token).1 = .error e2) ∧
         (∀ newToken, rb.loginRes = .ok newToken →
            ((∀ e2, rb.acceptRes newToken = .error e2 →
                (safe_get_hopper rb token).1 = .error e2) ∧
             (rb.acceptRes newToken = .ok () →
                ((∀ kg, get_hopper_kg rb newToken 1 = .ok kg →
                    (safe_get_hopper rb token).1 = .ok (kg, newToken)) ∧
                 (∀ e2, get_hopper_kg rb newToken 1 = .error e2 →
                    (safe_get_hopper rb token).1 = .error e2))))))) ∧
    (safe_get_hopper rb token).2.countP
      (fun ev => match ev with | CallEv.fetch _ => true | _ => false) ≤ 2 ∧
    (safe_get_hopper rb token).2.countP
      (fun ev => match ev with | CallEv.login => true | _ => false) ≤ 1 := by
  refine ⟨?_, ?_, ?_, ?_⟩
  · intro kg h0
    simp only [safe_get_hopper, h0]
  · intro e h0
    refine ⟨?_, ?_, ?_⟩
    · cases hl : rb.loginRes with
      | error e2 => simp [safe_get_hopper, h0, hl]
      | ok newToken =>
        cases ha : rb.acceptRes newToken with
        | error e2 => simp [safe_get_hopper, h0, hl, ha]
        | ok u =>
          cases h1 : get_hopper_kg rb newToken 1 with
          | ok kg => simp [safe_get_hopper, h0, hl, ha, h1]
          | error e2 => simp [safe_get_hopper, h0, hl, ha, h1]
    · intro e2 hl
      simp [safe_get_hopper, h0, hl]
    · intro newToken hl
      refine ⟨?_, ?_⟩
      · intro e2 ha
        simp [safe_get_hopper, h0, hl, ha]
      · intro ha
        refine ⟨?_, ?_⟩
        · intro kg h1
          simp [safe_get_hopper, h0, hl, ha, h1]
        · intro e2 h1
          simp [safe_get_hopper, h0, hl, ha, h1]
  · cases h0 : get_hopper_kg rb token 0 with
    | ok kg => simp [safe_get_hopper, h0, List.countP, List.countP.go]
    | error e =>
      cases hl : rb.loginRes with
      | error e2 => simp [safe_get_hopper, h0, hl, List.countP, List.countP.go]
      | ok newToken =>
        cases ha : rb.acceptRes newToken with
        | error e2 => simp [safe_get_hopper, h0, hl, ha, List.countP, List.countP.go]
        | ok u =>
          cases h1 : get_hopper_kg rb newToken 1 with
          | ok kg => simp [safe_get_hopper, h0, hl, ha, h1, List.countP, List.countP.go]
          | error e2 => simp [safe_get_hopper, h0, hl, ha, h1, List.countP, List.countP.go]
  · cases h0 : get_hopper_kg rb token 0 with
    | ok kg => simp [safe_get_hopper, h0, List.countP, List.countP.go]
    | error e =>
      cases hl : rb.loginRes with
      | error e2 => simp [safe_get_hopper, h0, hl, List.countP, List.countP.go]
      | ok newToken =>
        cases ha : rb.acceptRes newToken with
        | error e2 => simp [safe_get_hopper, h0, hl, ha, List.countP, List.countP.go]
        | ok u =>
          cases h1 : get_hopper_kg rb newToken 1 with
          | ok kg => simp [safe_get_hopper, h0, hl, ha, h1, List.countP, List.countP.go]
          | error e2 => simp [safe_get_hopper, h0, hl, ha, h1, List.countP, List.countP.go]

/-- The integer value `"5"` parses to `5`. -/
lemma parse_five : parseFloat (commaToDot (strCoerce (some "5"))) = some 5 := by
  have hp : parseFloatParts (commaToDot (strCoerce (some "5"))) = some ⟨1, 5, 0, 0, 0⟩ := by
    decide
  simp only [parseFloat, hp, Option.map_some, Option.some.injEq]
  norm_num [FloatParts.val]

/-- A payload whose `frontdata` entry carries the value `"5"`. -/
def payloadFive : Payload :=
  ⟨FieldV.list [⟨some "hoppercontent", none, some "5"⟩], FieldV.absent⟩

/-- A remote whose first controller-data request fails and whose recovery
(login to token `"t1"`, terms acceptance, second request) succeeds. -/
def rbRecover : RemoteBehavior :=
  ⟨fun _ idx => if idx = 0 then .error (.net 1) else .ok payloadFive,
   .ok "t1", fun _ => .ok ()⟩

/-- The second fetch of `rbRecover` extracts the value `5`. -/
lemma rbRecover_second_fetch : get_hopper_kg rbRecover "t1" 1 = Except.ok 5 := by
  have h := extract_front payloadFive _ _ 5 rfl rfl parse_five
  simp [get_hopper_kg, rbRecover, h]

/-- C2 witness: the recovery path of the contract on `rbRecover` returns
the second fetch's value with the new token. -/
theorem safe_get_hopper_contract_witness :
    (safe_get_hopper rbRecover "t0").1 = Except.ok (5, "t1") :=
  ((((safe_get_hopper_contract rbRecover "t0").2.1 (.net 1) rfl).2.2
      "t1" rfl).2 rfl).1 5 rbRecover_second_fetch

/-- Configuration identical to `cfgServer` but with no ntfy server set. -/
def cfgNoServer : Config :=
  ⟨140, 60, none, none, "topic", "Stoker hopper low", "4", 2⟩

/-- C5 counterexample: with no notification server configured, an
invocation of `send_ntfy_alert` propagates the `AttributeError` raised by
`None.rstrip` before the protected block, so not every failure is caught
internally. -/
theorem send_ntfy_alert_none_raises :
    send_ntfy_alert cfgNoServer 100 none (Except.ok ()) = Except.error PyExn.attrErr := rfl

/-- C5 (amended): whenever a notification server is configured, the send
operation catches every failure of the POST internally, logs it, and
returns normally, for every reading, percent value and POST outcome;
only the URL construction on an unset server escapes. -/
theorem send_ntfy_alert_swallows (cfg : Config) (kg : ℚ) (percent : Option ℚ)
    (postRes : Except PyExn Unit) (srv : String) (h : cfg.ntfyServer = some srv) :
    send_ntfy_alert cfg kg percent postRes = Except.ok () := by
  cases postRes <;> simp [send_ntfy_alert, h]

/-- C5 witness: a failing POST against a configured server is swallowed. -/
theorem send_ntfy_alert_swallows_witness :
    send_ntfy_alert cfgServer 100 none (Except.error (PyExn.net 3)) = Except.ok () :=
  send_ntfy_alert_swallows cfgServer 100 none (Except.error (PyExn.net 3))
    "https://ntfy.sh" rfl

/-- A remote that always returns the `payloadFive` telemetry. -/
def rbOk : RemoteBehavior :=
  ⟨fun _ _ => .ok payloadFive, .error (.authErr 0), fun _ => .ok ()⟩

/-- A remote for which the fetch and the recovery login both fail. -/
def rbFail : RemoteBehavior :=
  ⟨fun _ _ => .error (.net 0), .error (.authErr 0), fun _ => .ok ()⟩

/-- A cycle whose fetch succeeds but whose ntfy POST fails. -/
def inpPostFail : CycleInput := ⟨rbOk, 1000, 1005, .error (.net 7)⟩

/-- A cycle whose fetch fails even after the recovery attempt. -/
def inpFail : CycleInput := ⟨rbFail, 0, 0, .ok ()⟩

/-- The always-`payloadFive` remote makes `safe_get_hopper` succeed at the
first fetch with the original token and the reading `5`. -/
lemma rbOk_first_fetch (tok : String) :
    (safe_get_hopper rbOk tok).1 = Except.ok (5, tok) := by
  have h0 : get_hopper_kg rbOk tok 0 = Except.ok 5 := by
    have h := extract_front payloadFive _ _ 5 rfl rfl parse_five
    simp [get_hopper_kg, rbOk, h]
  simp [safe_get_hopper, h0]

/-- C6 counterexample: a cycle in which the ntfy POST fails (the alert is
not delivered) still sets the last-alert timestamp to the cycle's second
clock reading, because `send_ntfy_alert` swallows the failure and returns
normally. -/
theorem cycle_updates_lastAlert_despite_failed_send :
    (cycleStep cfgServer inpPostFail ⟨"tok", none⟩).lastAlertTime = some 1005 ∧
    inpPostFail.postRes = Except.error (PyExn.net 7) := by
  refine ⟨?_, rfl⟩
  have hs : (safe_get_hopper rbOk "tok").1 = Except.ok (5, "tok") :=
    rbOk_first_fetch "tok"
  have hd : alert_decide cfgServer 5 none 1000 = true := by
    norm_num [alert_decide, cfgServer]
  have hsrv : cfgServer.ntfyServer = some "https://ntfy.sh" := rfl
  simp [cycleStep, inpPostFail, hs, hd, send_ntfy_alert, hsrv]

/-- C6 (amended): across a cycle, the last-alert timestamp is set to the
post-send clock reading exactly when the fetch succeeded, the alert gate
decided to send, and `send_ntfy_alert` returned normally (a server is
configured) — irrespective of whether the POST itself succeeded, since
its failure is swallowed inside send; in every other case (gate says no,
fetch failed, or send raised on an unset server) the timestamp is
unchanged. -/
theorem cycle_lastAlert_update_rule :
    ∀ (cfg : Config) (inp : CycleInput) (st : LoopState),
      (∀ kg tok, (safe_get_hopper inp.remote st.token).1 = .ok (kg, tok) →
          alert_decide cfg kg st.lastAlertTime inp.nowDecide = true →
          ((∀ srv, cfg.ntfyServer = some srv →
              (cycleStep cfg inp st).lastAlertTime = some inp.nowUpdate) ∧
           (cfg.ntfyServer = none →
              (cycleStep cfg inp st).lastAlertTime = st.lastAlertTime))) ∧
      (∀ kg tok, (safe_get_hopper inp.remote st.token).1 = .ok (kg, tok) →
          alert_decide cfg kg st.lastAlertTime inp.nowDecide = false →
          (cycleStep cfg inp st).lastAlertTime = st.lastAlertTime) ∧
      (∀ e, (safe_get_hopper inp.remote st.token).1 = .error e →
          (cycleStep cfg inp st).lastAlertTime = st.lastAlertTime) := by
  intro cfg inp st
  refine ⟨?_, ?_, ?_⟩
  · intro kg tok hs hd
    constructor
    · intro srv hsrv
      cases hp : inp.postRes <;>
        simp [cycleStep, hs, hd, send_ntfy_alert, hsrv, hp]
    · intro hsrv
      simp [cycleStep, hs, hd, send_ntfy_alert, hsrv]
  · intro kg tok hs hd
    simp [cycleStep, hs, hd]
  · intro e hs
    simp [cycleStep, hs]

/-- C6 witness: a failed cycle leaves a previously set timestamp alone. -/
theorem cycle_lastAlert_update_rule_witness :
    (cycleStep cfgServer inpFail ⟨"tok", some 42⟩).lastAlertTime = some 42 :=
  (cycle_lastAlert_update_rule cfgServer inpFail ⟨"tok", some 42⟩).2.2
    (PyExn.authErr 0) rfl

/-- C9: when the fetch-and-extract step fails even after its one-shot
recovery, the cycle is a no-op on the loop state: the token and the
last-alert timestamp are exactly those of the previous cycle. -/
theorem cycle_error_frame :
    ∀ (cfg : Config) (inp : CycleInput) (st : LoopState) (e : PyExn),
      (safe_get_hopper inp.remote st.token).1 = .error e →
      cycleStep cfg inp st = st := by
  intro cfg inp st e hs
  simp [cycleStep, hs]

/-- C9 witness: a doubly failing fetch leaves the concrete state intact. -/
theorem cycle_error_frame_witness :
    cycleStep cfgServer inpFail ⟨"tok", none⟩ = ⟨"tok", none⟩ :=
  cycle_error_frame cfgServer inpFail ⟨"tok", none⟩ (PyExn.authErr 0) rfl

/-- C7: the loop survives every cycle: running any finite list of cycle
inputs (failing or not) performs exactly one fixed-length sleep per cycle
— the sleep schedule is `CHECK_INTERVAL` repeated once per input,
independent of success or failure — and its final state is the plain fold
of the (total) cycle step over all inputs, so no cycle outcome terminates
or skips the loop. -/
theorem poll_loop_cadence :
    ∀ (cfg : Config) (inputs : List CycleInput) (st : LoopState),
      (runCycles cfg inputs st).2 = List.replicate inputs.length cfg.checkInterval ∧
      (runCycles cfg inputs st).1 = inputs.foldl (fun s i => cycleStep cfg i s) st := by
  intro cfg inputs
  induction inputs with
  | nil => intro st; simp [runCycles]
  | cons i rest ih =>
    intro st
    simp [runCycles, List.replicate_succ, ih]

/-- `139.9` formats to `"139.9"` at one decimal place. -/
lemma format_reading : formatOneDec (1399 / 10 : ℚ) = "139.9" := by
  have h : round ((1399 / 10 : ℚ) * 10) = 1399 := by norm_num [round_eq]
  simp only [formatOneDec, h]
  decide

/-- `27.98` rounds to one decimal place as `"28.0"`. -/
lemma format_percent : formatOneDec (1399 / 50 : ℚ) = "28.0" := by
  have h : round ((1399 / 50 : ℚ) * 10) = 280 := by norm_num [round_eq]
  simp only [formatOneDec, h]
  decide

/-- The threshold `140` formats to `"140.0"`. -/
lemma format_threshold : formatOneDec (cfgServer.lowThresholdKg) = "140.0" := by
  have h : round ((cfgServer.lowThresholdKg : ℚ) * 10) = 1400 := by
    norm_num [round_eq, cfgServer]
  simp only [formatOneDec, h]
  decide

/-- The full alert message of the end-to-end scenario. -/
lemma message_eval :
    buildMessage cfgServer (1399 / 10) (computePercent cfgServer.maxCapacityKg (1399 / 10)) =
      "Hopper low: 139.9 kg remaining (28.0% of capacity). Threshold: 140.0 kg." := by
  have hp : computePercent cfgServer.maxCapacityKg (1399 / 10 : ℚ) = some (1399 / 50) := by
    norm_num [computePercent, cfgServer]
  rw [hp]
  simp only [buildMessage, format_reading, format_percent, format_threshold]
  decide

/-- C8: the percent-remaining value equals reading divided by max capacity
times 100 and is present exactly when a max capacity is configured and
positive; in the end-to-end scenario (reading 139.9 kg, threshold 140,
max capacity 500) the percent is 27.98 and the alert message contains
"139.9 kg", "28.0%" (one-decimal rounding) and "140.0 kg". -/
theorem percent_and_message :
    (∀ (maxCap : Option ℚ) (kg : ℚ),
        computePercent maxCap kg =
          match maxCap with
          | some m => if 0 < m then some (kg / m * 100) else none
          | none => none) ∧
    computePercent cfgServer.maxCapacityKg (1399 / 10) = some (1399 / 50) ∧
    (∃ a b, buildMessage cfgServer (1399 / 10)
        (computePercent cfgServer.maxCapacityKg (1399 / 10)) = a ++ "139.9 kg" ++ b) ∧
    (∃ a b, buildMessage cfgServer (1399 / 10)
        (computePercent cfgServer.maxCapacityKg (1399 / 10)) = a ++ "28.0%" ++ b) ∧
    (∃ a b, buildMessage cfgServer (1399 / 10)
        (computePercent cfgServer.maxCapacityKg (1399 / 10)) = a ++ "140.0 kg" ++ b) := by
  refine ⟨?_, ?_, ?_, ?_, ?_⟩
  · intro maxCap kg
    cases maxCap with
    | none => rfl
    | some m =>
      by_cases h : 0 < m
      · simp [computePercent, h, ne_of_gt h]
      · by_cases hm : m = 0 <;> simp [computePercent, h, hm]
  · norm_num [computePercent, cfgServer]
  · exact ⟨"Hopper low: ",
      " remaining (28.0% of capacity). Threshold: 140.0 kg.",
      by rw [message_eval]; decide⟩
  · exact ⟨"Hopper low: 139.9 kg remaining (",
      " of capacity). Threshold: 140.0 kg.",
      by rw [message_eval]; decide⟩
  · exact ⟨"Hopper low: 139.9 kg remaining (28.0% of capacity). Threshold: ",
      ".", by rw [message_eval]; decide⟩
